import Mathlib

/-!
Verification development for a voice real-estate agent service
(`app.py`, `real_estate_tools.py`).

The development shallowly embeds the parts of the program needed to settle
the stated properties:

* the audio transcoder (`resample_mulaw_8k_to_pcm_24k`,
  `resample_pcm_24k_to_mulaw_8k`), including a faithful model of CPython
  `audioop.ulaw2lin` / `audioop.lin2ulaw` / `audioop.ratecv` for
  width 2, one channel, default weights;
* the tool layer (`search_properties`, `get_property_details`,
  `handle_tool_call`), with the HTTP search collaborator's response and
  the agent connection's send operations given as parameters;
* the per-call forwarding loops of both session-bridge variants
  (`forward_to_azure`, `forward_to_client`, `send_initial_greeting`),
  with client messages / agent events given as input traces.

PCM frames are modelled as lists of 16-bit sample values (`List Int`,
two bytes per sample), companded frames as lists of bytes (`List Nat`).
Event-loop clock readings are rationals (seconds).
-/

namespace VoiceAgent

/-! ### Audio transcoder: CPython `audioop` model (width 2, mono) -/

/-- Decode one mu-law byte to a 16-bit linear sample
(CPython `audioop.c`, `st_ulaw2linear16`): complement the byte, rebuild
the biased mantissa, shift by the segment, undo the bias, apply the sign. -/
def st_ulaw2linear16 (b : Nat) : Int :=
  let u := 255 - b % 256
  let t := ((u % 16) * 8 + 132) <<< ((u / 16) % 8)
  if 128 ≤ u then 132 - (t : Int) else (t : Int) - 132

/-- Segment end table `seg_uend` of CPython `audioop.c`. -/
def seg_uend : List Nat := [0x3F, 0x7F, 0xFF, 0x1FF, 0x3FF, 0x7FF, 0xFFF, 0x1FFF]

/-- Linear scan `search` of CPython `audioop.c`: index of the first table
entry that is `≥ val`, or the table size when none is. -/
def uSearch (val : Nat) : List Nat → Nat
  | [] => 0
  | x :: rest => if val ≤ x then 0 else uSearch val rest + 1

/-- Encode a 14-bit linear sample to one mu-law byte
(CPython `audioop.c`, `st_14linear2ulaw`): take sign and magnitude, clip
to 8159, add the shifted bias, find the segment, pack segment and
quantization bits, complement. -/
def st_14linear2ulaw (pcm14 : Int) : Nat :=
  let mask : Nat := if pcm14 < 0 then 0x7F else 0xFF
  let mag0 : Nat := (if pcm14 < 0 then -pcm14 else pcm14).toNat
  let mag1 : Nat := if 8159 < mag0 then 8159 else mag0
  let mag : Nat := mag1 + 33
  let seg := uSearch mag seg_uend
  if 8 ≤ seg then 0x7F ^^^ mask
  else (((seg <<< 4) ||| ((mag >>> (seg + 1)) &&& 0xF)) ^^^ mask)

/-- `audioop.ulaw2lin(fragment, 2)`: decode each byte to a 16-bit sample. -/
def ulaw2lin (mulaw : List Nat) : List Int :=
  mulaw.map st_ulaw2linear16

/-- `audioop.lin2ulaw(fragment, 2)`: each 16-bit sample is arithmetically
shifted right by 2 (`(sample << 16) >> 18`) and encoded. -/
def lin2ulaw (pcm : List Int) : List Nat :=
  pcm.map (fun s => st_14linear2ulaw (Int.fdiv s 4))

/-- Inner emission loop of `audioop.ratecv` (`while (d >= 0)`): emit the
truncating linear interpolation `(prev*d + cur*(outrate-d)) / outrate` of
the two current 32-bit-scaled samples, stored back as a 16-bit sample
(`>> 16`), decrementing `d` by `inrate` each time.  The `fuel` argument
bounds the loop; callers pass `(d+1).toNat`, which is exact for
`inrate ≥ 1`. -/
def ratecvEmit (inrate outrate prev cur : Int) : Nat → Int → List Int × Int
  | 0, d => ([], d)
  | fuel + 1, d =>
    if 0 ≤ d then
      let out := Int.fdiv (Int.tdiv (prev * d + cur * (outrate - d)) outrate) 65536
      let r := ratecvEmit inrate outrate prev cur fuel (d - inrate)
      (out :: r.1, r.2)
    else ([], d)

/-- Main loop of `audioop.ratecv` for one channel, width 2, weights
`A=1, B=0` (so the digital filter is the identity): repeatedly consume one
input sample (`prev_i = cur_i; cur_i = sample << 16; d += outrate`), then
emit interpolated samples while `d ≥ 0`.  With `state=None` the caller
starts at `d = -outrate`, `prev = cur = 0`. -/
def ratecvGo (inrate outrate : Int) : List Int → Int → Int → Int → List Int
  | [], _, _, _ => []
  | s :: rest, d, _, cur =>
    let prev2 := cur
    let cur2 := s * 65536
    let d2 := d + outrate
    let e := ratecvEmit inrate outrate prev2 cur2 (d2 + 1).toNat d2
    e.1 ++ ratecvGo inrate outrate rest e.2 prev2 cur2

/-- `audioop.ratecv(pcm, 2, 1, 8000, 24000, None)`: after gcd reduction the
rates are `inrate = 1, outrate = 3`; the fresh state starts at `d = -3`. -/
def ratecv_8k_to_24k (pcm8 : List Int) : List Int :=
  ratecvGo 1 3 pcm8 (-3) 0 0

/-- `audioop.ratecv(pcm, 2, 1, 24000, 8000, None)`: after gcd reduction the
rates are `inrate = 3, outrate = 1`; the fresh state starts at `d = -1`. -/
def ratecv_24k_to_8k (pcm24 : List Int) : List Int :=
  ratecvGo 3 1 pcm24 (-1) 0 0

/-- `app.resample_mulaw_8k_to_pcm_24k`: Twilio (mu-law 8k) to Azure
(PCM16 24k); mu-law decode then resample, discarding the returned state. -/
def resample_mulaw_8k_to_pcm_24k (mulaw_chunk : List Nat) : List Int :=
  ratecv_8k_to_24k (ulaw2lin mulaw_chunk)

/-- `app.resample_pcm_24k_to_mulaw_8k`: Azure (PCM16 24k) to Twilio
(mu-law 8k); resample then mu-law encode, discarding the returned state. -/
def resample_pcm_24k_to_mulaw_8k (pcm_chunk_24k : List Int) : List Nat :=
  lin2ulaw (ratecv_24k_to_8k pcm_chunk_24k)

/-! ### Tool layer: `real_estate_tools.py`

The returned JSON strings are modelled by a small JSON value type `J`
(the functions build dictionaries and pass them to `json.dumps`, which
cannot fail on them, so the string layer is represented by the value
built).  The single `requests.post` call of each function is modelled by
a `Collab` parameter describing the collaborator's response; the outbound
request payload (filters, vector query) does not influence the returned
value and is elided. -/

/-- JSON values, as produced by the tool layer. -/
inductive J
  | str (s : String)
  | num (n : Int)
  | bool (b : Bool)
  | null
  | arr (xs : List J)
  | obj (fields : List (String × J))

/-- Keys of a JSON object (empty for non-objects). -/
def J.keys : J → List String
  | .obj fields => fields.map Prod.fst
  | _ => []

/-- Field lookup on a JSON object, `none` when absent or not an object. -/
def J.get : J → String → Option J
  | .obj fields, k =>
    match fields.find? (fun p => p.1 == k) with
    | some p => some p.2
    | none => none
  | _, _ => none

/-- Python `dict.get(k)` on a decoded search hit: the value, or JSON null
when the key is absent (`prop.get(...)` returns `None`, dumped as null). -/
def dictGet (fields : List (String × J)) (k : String) : J :=
  match fields.find? (fun p => p.1 == k) with
  | some p => p.2
  | none => J.null

/-- Truthiness of an optional configuration string (`not SEARCH_ENDPOINT`
is true when the variable is unset or the empty string). -/
def falsyStr : Option String → Bool
  | none => true
  | some s => s.isEmpty

/-- Outcome of the one `requests.post` call a tool function makes:
a 200 response with decoded JSON body (optional `@odata.count` and the
`value` hit list, each hit a decoded JSON object), a 200 response whose
body fails to decode, a non-200 status, or a raised exception
(network error, timeout). -/
inductive Collab
  | ok (count : Option Int) (value : List (List (String × J)))
  | badJson (msg : String)
  | httpStatus (code : Nat)
  | raises (msg : String)

/-- Listing formatting inside `search_properties`: each hit reduced to the
voice-friendly fields. -/
def formatListing (prop : List (String × J)) : J :=
  J.obj [("reference", dictGet prop "reference_number"),
         ("title", dictGet prop "title"),
         ("type", dictGet prop "property_type"),
         ("location", dictGet prop "location"),
         ("price_qar", dictGet prop "price"),
         ("bedrooms", dictGet prop "bedrooms"),
         ("bathrooms", dictGet prop "bathrooms")]

/-- `real_estate_tools.search_properties`.  Unconfigured service returns an
error object; otherwise the collaborator response is formatted: an empty
hit list gives a found/message object, a non-empty one gives
found/showing/properties with `found = result.get("@odata.count", 0)`;
non-200 statuses and raised exceptions are converted to error objects by
the surrounding try/except.  The query/filter arguments shape only the
outbound request and are kept for fidelity of the signature. -/
def search_properties (searchEndpoint searchApiKey : Option String)
    (query property_type location : String)
    (min_price max_price bedrooms : Option Int) (resp : Collab) : J :=
  if falsyStr searchEndpoint || falsyStr searchApiKey then
    J.obj [("error", J.str "Search service not configured")]
  else
    match resp with
    | .ok count value =>
      if value.isEmpty then
        J.obj [("found", J.num 0),
               ("message", J.str "No properties found matching your criteria.")]
      else
        J.obj [("found", J.num (count.getD 0)),
               ("showing", J.num value.length),
               ("properties", J.arr (value.map formatListing))]
    | .badJson msg => J.obj [("error", J.str ("Search error: " ++ msg))]
    | .httpStatus code => J.obj [("error", J.str ("Search failed: " ++ toString code))]
    | .raises msg => J.obj [("error", J.str ("Search error: " ++ msg))]

/-- `real_estate_tools.get_property_details`: same structure with a single
hit; an empty hit list gives the found/message object, otherwise the first
hit is formatted under the `property` key. -/
def get_property_details (searchEndpoint searchApiKey : Option String)
    (reference_number : String) (resp : Collab) : J :=
  if falsyStr searchEndpoint || falsyStr searchApiKey then
    J.obj [("error", J.str "Search service not configured")]
  else
    match resp with
    | .ok _ value =>
      match value with
      | [] =>
        J.obj [("found", J.bool false),
               ("message", J.str ("No property found with reference number "
                                   ++ reference_number))]
      | prop :: _ =>
        J.obj [("found", J.bool true),
               ("property", J.obj
                 [("reference", dictGet prop "reference_number"),
                  ("title", dictGet prop "title"),
                  ("type", dictGet prop "property_type"),
                  ("location", dictGet prop "location"),
                  ("price_qar", dictGet prop "price"),
                  ("bedrooms", dictGet prop "bedrooms"),
                  ("bathrooms", dictGet prop "bathrooms"),
                  ("url", dictGet prop "url")])]
    | .badJson msg => J.obj [("error", J.str ("Lookup error: " ++ msg))]
    | .httpStatus code => J.obj [("error", J.str ("Lookup failed: " ++ toString code))]
    | .raises msg => J.obj [("error", J.str ("Lookup error: " ++ msg))]

/-! ### Shared tool handler: `app.handle_tool_call` -/

/-- The parsed argument dictionary, as read by `args.get(...)`. -/
structure ToolArgs where
  query : Option String := none
  property_type : Option String := none
  location : Option String := none
  min_price : Option Int := none
  max_price : Option Int := none
  bedrooms : Option Int := none
  reference_number : Option String := none

/-- The raw `arguments` string of a function-call event: either it parses
as JSON to an argument dictionary, or `json.loads` raises on it. -/
inductive RawArgs
  | parses (args : ToolArgs)
  | malformed

/-- Commands `handle_tool_call` pushes into the agent connection. -/
inductive ToolEffect
  | functionCallOutput (call_id : String) (output : J)
  | responseCreate

/-- Result of one `handle_tool_call` task: the commands that reached the
agent connection, whether an exception was raised and caught by the
function's blanket `except`, and whether any exception escaped the
function (tracked to state non-propagation). -/
structure ToolCallRun where
  effects : List ToolEffect
  caught : Bool
  propagated : Bool

/-- `app.handle_tool_call`.  Everything runs inside one `try` whose
`except Exception` only logs: a `json.loads` failure on the arguments
aborts before any result is computed; an unknown tool name yields the
error object; a send failure on the function-call-output aborts before
`response.create`; a failure of `response.create` is likewise only
logged.  `sendFails` / `createFails` say whether the corresponding
connection operation raises. -/
def handle_tool_call (searchEndpoint searchApiKey : Option String)
    (call_id name : String) (arguments : RawArgs) (resp : Collab)
    (sendFails createFails : Bool) : ToolCallRun :=
  match arguments with
  | .malformed => ⟨[], true, false⟩
  | .parses args =>
    let result_json : J :=
      if name = "search_properties" then
        search_properties searchEndpoint searchApiKey (args.query.getD "")
          (args.property_type.getD "") (args.location.getD "")
          args.min_price args.max_price args.bedrooms resp
      else if name = "get_property_details" then
        get_property_details searchEndpoint searchApiKey
          (args.reference_number.getD "") resp
      else J.obj [("error", J.str "Unknown tool called.")]
    if sendFails then ⟨[], true, false⟩
    else if createFails then ⟨[.functionCallOutput call_id result_json], true, false⟩
    else ⟨[.functionCallOutput call_id result_json, .responseCreate], false, false⟩

/-! ### Telephony bridge, client-to-agent loop: `forward_to_azure`
(inside `app.run_twilio_agent`)

The loop receives text frames; each is `json.loads`-parsed and dispatched
on its `event` field.  A frame is modelled by the packet it parses to
(`malformedText` standing for a text on which `json.loads` or the key
accesses raise), paired with the event-loop clock reading at which the
loop processes it.  A media payload either base64-decodes to bytes or
makes `base64.b64decode` raise. -/

/-- A media payload: the bytes its base64 decodes to, or an undecodable
string. -/
inductive MediaPayload
  | ok (bytes : List Nat)
  | bad

/-- One incoming Twilio websocket item. -/
inductive TwilioMsg
  | start (streamSid : String)
  | media (payload : MediaPayload)
  | stop
  | other
  | malformedText
  | disconnect

/-- Closure state of `run_twilio_agent` shared by its tasks. -/
structure TwilioUplinkState where
  stream_sid : Option String
  start_time : ℚ
  started : Bool
deriving DecidableEq

/-- Initial closure state (`stream_sid = None`, `start_time = 0`, event
not yet set). -/
def initTwilioState : TwilioUplinkState := ⟨none, 0, false⟩

/-- How the receive loop ended: input exhausted with the loop still
waiting, `break` on a stop frame, `WebSocketDisconnect` caught, or an
uncaught exception propagating out of the task. -/
inductive UplinkExit
  | pending
  | stopped
  | disconnected
  | errored
deriving DecidableEq

/-- Twilio variant of `forward_to_azure`: returns the PCM chunks appended
to the agent input buffer, the final closure state, and how the loop
ended.  A `start` frame records the stream sid, sets the stream-start
event and the start time; a `media` frame is dropped while the clock is
within 1.2 s of `start_time`, otherwise decoded, transcoded and appended;
`stop` breaks; unmatched events fall through; only `WebSocketDisconnect`
is caught, every other exception ends the task. -/
def forward_to_azure_twilio :
    TwilioUplinkState → List (ℚ × TwilioMsg) →
      List (List Int) × TwilioUplinkState × UplinkExit
  | st, [] => ([], st, .pending)
  | st, (t, msg) :: rest =>
    match msg with
    | .malformedText => ([], st, .errored)
    | .disconnect => ([], st, .disconnected)
    | .stop => ([], st, .stopped)
    | .other => forward_to_azure_twilio st rest
    | .start sid =>
      forward_to_azure_twilio ⟨some sid, t, true⟩ rest
    | .media p =>
      if t - st.start_time < 6/5 then forward_to_azure_twilio st rest
      else
        match p with
        | .bad => ([], st, .errored)
        | .ok bytes =>
          let r := forward_to_azure_twilio st rest
          (resample_mulaw_8k_to_pcm_24k bytes :: r.1, r.2.1, r.2.2)

/-! ### Browser bridge, client-to-agent loop: `forward_to_azure`
(inside `app.run_browser_agent`) -/

/-- One incoming browser websocket item (`malformedText` stands for a
text on which `json.loads` or the key accesses raise). -/
inductive BrowserMsg
  | start
  | audio (payload : String)
  | commit
  | other
  | malformedText
  | disconnect
deriving DecidableEq

/-- Commands the browser uplink sends to the agent connection. -/
inductive BrowserAzureCmd
  | appendAudio (payload : String)
  | commitBuffer
deriving DecidableEq

/-- Browser variant of `forward_to_azure`: `start` sets the greeting
event, a non-empty audio payload is appended verbatim (no transcoding),
`commit` forwards a commit; only `WebSocketDisconnect` is caught. -/
def forward_to_azure_browser :
    Bool → List BrowserMsg → List BrowserAzureCmd × Bool × UplinkExit
  | ev, [] => ([], ev, .pending)
  | ev, msg :: rest =>
    match msg with
    | .malformedText => ([], ev, .errored)
    | .disconnect => ([], ev, .disconnected)
    | .start => forward_to_azure_browser true rest
    | .audio p =>
      if p.isEmpty then forward_to_azure_browser ev rest
      else
        let r := forward_to_azure_browser ev rest
        (.appendAudio p :: r.1, r.2)
    | .commit =>
      let r := forward_to_azure_browser ev rest
      (.commitBuffer :: r.1, r.2)
    | .other => forward_to_azure_browser ev rest

/-! ### Greeting task: `send_initial_greeting` (both variants) -/

/-- The one command kind the greeting task can issue. -/
inductive GreetingCmd
  | responseCreate
deriving DecidableEq

/-- `send_initial_greeting` of both variants: wait on the start event,
then issue exactly one `response.create` (the Twilio variant additionally
sleeps 50 ms first, which does not change the commands issued).  Given
whether the event was ever set, these are the commands the task issues. -/
def send_initial_greeting (started : Bool) : List GreetingCmd :=
  if started then [.responseCreate] else []

/-! ### Agent-to-client loops: `forward_to_client` (both variants) -/

/-- Typed agent events consumed by `forward_to_client` (the fields read
via `getattr`).  `other` covers every event type with no matching branch. -/
inductive AgentEvent
  | transcriptionCompleted (transcript : String)
  | textDone (text : String)
  | audioDelta (delta : List Int)
  | speechStarted
  | speechStopped
  | functionCallDone (call_id : Option String) (name : String) (arguments : String)
  | other

/-- Effects of the browser `forward_to_client` loop. -/
inductive BrowserOut
  | audioToClient (payload : List Int)
  | clearAudio
  | cancelResponse
  | spawnToolCall (call_id name arguments : String)
deriving DecidableEq

/-- Python truthiness of `getattr(event, "call_id", None)`. -/
def truthyOpt : Option String → Bool
  | none => false
  | some s => !s.isEmpty

/-- Browser `forward_to_client`, one event: transcription/text events only
log; a non-empty audio delta is forwarded; speech-started sends the
clear signal and then cancels the response; a function-call event with a
truthy call id spawns a tool task. -/
def forward_to_client_browser_event : AgentEvent → List BrowserOut
  | .transcriptionCompleted _ => []
  | .textDone _ => []
  | .audioDelta delta => if delta.isEmpty then [] else [.audioToClient delta]
  | .speechStarted => [.clearAudio, .cancelResponse]
  | .speechStopped => []
  | .functionCallDone cid nm args =>
    if truthyOpt cid then [.spawnToolCall (cid.getD "") nm args] else []
  | .other => []

/-- Browser `forward_to_client` over its whole event stream: events are
handled strictly in order by one loop. -/
def forward_to_client_browser (events : List AgentEvent) : List BrowserOut :=
  (events.map forward_to_client_browser_event).flatten

/-- Effects of the Twilio `forward_to_client` loop. -/
inductive TwilioOut
  | mediaToClient (streamSid : String) (payload : List Nat)
  | clearToClient (streamSid : String)
  | cancelResponse
  | spawnToolCall (call_id name arguments : String)
deriving DecidableEq

/-- Twilio `forward_to_client`, one event, given the current `stream_sid`:
a non-empty audio delta is transcoded and sent tagged with the sid (and
dropped when no sid is set); speech-started sends the clear signal only
when a sid is set, then always cancels the response; function-call events
spawn a tool task. -/
def forward_to_client_twilio_event (stream_sid : Option String) :
    AgentEvent → List TwilioOut
  | .audioDelta delta =>
    match stream_sid with
    | some sid =>
      if delta.isEmpty then []
      else [.mediaToClient sid (resample_pcm_24k_to_mulaw_8k delta)]
    | none => []
  | .speechStarted =>
    (match stream_sid with
     | some sid => [.clearToClient sid]
     | none => []) ++ [.cancelResponse]
  | .functionCallDone cid nm args =>
    if truthyOpt cid then [.spawnToolCall (cid.getD "") nm args] else []
  | _ => []

/-- Twilio `forward_to_client` over its whole event stream, at a fixed
`stream_sid` (the sid is written once by the uplink's start frame and
never changes afterwards). -/
def forward_to_client_twilio (stream_sid : Option String)
    (events : List AgentEvent) : List TwilioOut :=
  (events.map (forward_to_client_twilio_event stream_sid)).flatten

/-! ### Transcoder lemmas -/

/-- All samples the emission loop produces from a zero sample pair are
zero. -/
theorem ratecvEmit_zero_vals (inrate outrate : Int) :
    ∀ (fuel : Nat) (d : Int), ∀ y ∈ (ratecvEmit inrate outrate 0 0 fuel d).1, y = 0 := by
  intro fuel
  induction fuel with
  | zero => intro d y hy; simp [ratecvEmit] at hy
  | succ n ih =>
    intro d y hy
    by_cases h : 0 ≤ d
    · simp [ratecvEmit, h] at hy
      rcases hy with h1 | h2
      · simpa using h1
      · exact ih _ y h2
    · simp [ratecvEmit, h] at hy

/-- Output length of the upsampling loop from the steady state `d = -1`:
three output samples per input sample. -/
theorem ratecvGo13_len (ins : List Int) :
    ∀ prev cur : Int, (ratecvGo 1 3 ins (-1) prev cur).length = 3 * ins.length := by
  induction ins with
  | nil => intro prev cur; rfl
  | cons s rest ih =>
    intro prev cur
    simp only [ratecvGo]
    norm_num [ratecvEmit, ih, List.length_append]
    all_goals omega

/-- Output length of the downsampling loop from any of its reachable
states `d ∈ {-3, -2, -1}`. -/
theorem ratecvGo31_len (ins : List Int) :
    ∀ (d : Int), -3 ≤ d → d ≤ -1 → ∀ (prev cur : Int),
      (ratecvGo 3 1 ins d prev cur).length = (ins.length + (d + 3).toNat) / 3 := by
  induction ins with
  | nil =>
    intro d h1 h2 prev cur
    interval_cases d <;> simp [ratecvGo]
  | cons s rest ih =>
    intro d h1 h2 prev cur
    interval_cases d
    · have := ih (-2) (by norm_num) (by norm_num) cur (s * 65536)
      simp only [ratecvGo]
      norm_num [ratecvEmit, this]
    · have := ih (-1) (by norm_num) (by norm_num) cur (s * 65536)
      simp only [ratecvGo]
      norm_num [ratecvEmit, this]
      all_goals omega
    · have := ih (-3) (by norm_num) (by norm_num) cur (s * 65536)
      simp only [ratecvGo]
      norm_num [ratecvEmit, this]
      all_goals omega

/-- The resampling loop maps all-zero inputs to all-zero outputs. -/
theorem ratecvGo_zero (inrate outrate : Int) (ins : List Int) :
    ∀ (d : Int), (∀ x ∈ ins, x = 0) →
      ∀ y ∈ ratecvGo inrate outrate ins d 0 0, y = 0 := by
  induction ins with
  | nil => intro d _ y hy; simp [ratecvGo] at hy
  | cons s rest ih =>
    intro d hx y hy
    have hs : s = 0 := hx s (by simp)
    subst hs
    simp only [ratecvGo, zero_mul] at hy
    rw [List.mem_append] at hy
    rcases hy with h1 | h2
    · exact ratecvEmit_zero_vals inrate outrate _ _ y h1
    · exact ih _ (fun x hxx => hx x (List.mem_cons_of_mem _ hxx)) y h2

/-- Downsampling 24k to 8k produces `ceil(n / 3)` samples. -/
theorem ratecv_24k_to_8k_len (ins : List Int) :
    (ratecv_24k_to_8k ins).length = (ins.length + 2) / 3 := by
  have := ratecvGo31_len ins (-1) (by norm_num) (by norm_num) 0 0
  simpa [ratecv_24k_to_8k] using this

/-- Upsampling 8k to 24k produces `3 * n - 2` samples (0 for an empty
frame). -/
theorem ratecv_8k_to_24k_len (ins : List Int) :
    (ratecv_8k_to_24k ins).length = if ins.length = 0 then 0 else 3 * ins.length - 2 := by
  cases ins with
  | nil => rfl
  | cons s rest =>
    have := ratecvGo13_len rest 0 (s * 65536)
    simp only [ratecv_8k_to_24k, ratecvGo]
    norm_num [ratecvEmit, this]
    omega

/-- An all-zero PCM frame round-trips (24k to mu-law 8k and back) to an
all-zero frame: the zero sample encodes to byte 255, byte 255 decodes to
sample 0, and both resampling directions preserve all-zero frames. -/
theorem roundtrip_zero_aux (pcm : List Int) (h : ∀ x ∈ pcm, x = 0) :
    ∀ y ∈ resample_mulaw_8k_to_pcm_24k (resample_pcm_24k_to_mulaw_8k pcm), y = 0 := by
  have hdown : ∀ x ∈ ratecv_24k_to_8k pcm, x = 0 := ratecvGo_zero 3 1 pcm (-1) h
  have hmu : ∀ b ∈ resample_pcm_24k_to_mulaw_8k pcm, b = 255 := by
    intro b hb
    simp only [resample_pcm_24k_to_mulaw_8k, lin2ulaw, List.mem_map] at hb
    obtain ⟨x, hx, hbx⟩ := hb
    rw [hdown x hx] at hbx
    rw [← hbx]; decide
  have hlin : ∀ v ∈ ulaw2lin (resample_pcm_24k_to_mulaw_8k pcm), v = 0 := by
    intro v hv
    simp only [ulaw2lin, List.mem_map] at hv
    obtain ⟨b, hb, hvb⟩ := hv
    rw [hmu b hb] at hvb
    rw [← hvb]; decide
  intro y hy
  exact ratecvGo_zero 1 3 _ (-3) hlin y hy

/-! ### Tool layer lemmas -/

/-- Every value `search_properties` returns is a JSON object carrying an
`error`, `found`, or `properties` key, on every configuration and
collaborator outcome. -/
theorem search_properties_keyed (ep k : Option String) (q pt loc : String)
    (mn mx bd : Option Int) (resp : Collab) :
    "error" ∈ (search_properties ep k q pt loc mn mx bd resp).keys
      ∨ "found" ∈ (search_properties ep k q pt loc mn mx bd resp).keys
      ∨ "properties" ∈ (search_properties ep k q pt loc mn mx bd resp).keys := by
  unfold search_properties
  split
  · simp [J.keys]
  · cases resp with
    | ok count value => by_cases hv : value.isEmpty <;> simp [hv, J.keys]
    | badJson m => simp [J.keys]
    | httpStatus c => simp [J.keys]
    | raises m => simp [J.keys]

/-- Every value `get_property_details` returns is a JSON object carrying
an `error`, `found`, or `property` key, on every configuration and
collaborator outcome. -/
theorem get_property_details_keyed (ep k : Option String) (ref : String)
    (resp : Collab) :
    "error" ∈ (get_property_details ep k ref resp).keys
      ∨ "found" ∈ (get_property_details ep k ref resp).keys
      ∨ "property" ∈ (get_property_details ep k ref resp).keys := by
  unfold get_property_details
  split
  · simp [J.keys]
  · cases resp with
    | ok count value => cases value <;> simp [J.keys]
    | badJson m => simp [J.keys]
    | httpStatus c => simp [J.keys]
    | raises m => simp [J.keys]

/-! ### Bridge lemmas -/

/-- Once the browser greeting event is set, it stays set for the rest of
the uplink loop, on every exit path. -/
theorem browser_ev_mono (msgs : List BrowserMsg) :
    (forward_to_azure_browser true msgs).2.1 = true := by
  induction msgs with
  | nil => rfl
  | cons m rest ih =>
    cases m with
    | start => simpa [forward_to_azure_browser] using ih
    | audio p => by_cases hp : p.isEmpty <;> simp [forward_to_azure_browser, hp, ih]
    | commit => simpa [forward_to_azure_browser] using ih
    | other => simpa [forward_to_azure_browser] using ih
    | malformedText => rfl
    | disconnect => rfl

/-- Without a start message the browser greeting event is never set. -/
theorem browser_ev_no_start (msgs : List BrowserMsg) (h : BrowserMsg.start ∉ msgs) :
    (forward_to_azure_browser false msgs).2.1 = false := by
  induction msgs with
  | nil => rfl
  | cons m rest ih =>
    have hm : m ≠ .start := fun he => h (he ▸ List.mem_cons_self m rest)
    have hrest : BrowserMsg.start ∉ rest := fun hr => h (List.mem_cons_of_mem _ hr)
    cases m with
    | start => exact absurd rfl hm
    | audio p =>
      by_cases hp : p.isEmpty <;> simp [forward_to_azure_browser, hp, ih hrest]
    | commit => simpa [forward_to_azure_browser] using ih hrest
    | other => simpa [forward_to_azure_browser] using ih hrest
    | malformedText => rfl
    | disconnect => rfl

/-- Once the Twilio stream-start event is set, it stays set for the rest
of the uplink loop, on every exit path. -/
theorem twilio_started_mono (msgs : List (ℚ × TwilioMsg)) :
    ∀ st : TwilioUplinkState, st.started = true →
      (forward_to_azure_twilio st msgs).2.1.started = true := by
  induction msgs with
  | nil => intro st h; exact h
  | cons m rest ih =>
    intro st h
    obtain ⟨t, msg⟩ := m
    cases msg with
    | start sid => exact (by simpa [forward_to_azure_twilio] using ih ⟨some sid, t, true⟩ rfl)
    | media p =>
      by_cases hg : t - st.start_time < 6/5
      · simpa [forward_to_azure_twilio, hg] using ih st h
      · cases p with
        | bad => simpa [forward_to_azure_twilio, hg] using h
        | ok bytes => simpa [forward_to_azure_twilio, hg] using ih st h
    | stop => simpa [forward_to_azure_twilio] using h
    | other => simpa [forward_to_azure_twilio] using ih st h
    | malformedText => simpa [forward_to_azure_twilio] using h
    | disconnect => simpa [forward_to_azure_twilio] using h

/-- Without a start frame the Twilio stream-start event is never set. -/
theorem twilio_started_no_start (msgs : List (ℚ × TwilioMsg))
    (h : ∀ p ∈ msgs, ∀ sid, p.2 ≠ TwilioMsg.start sid) :
    ∀ st : TwilioUplinkState, st.started = false →
      (forward_to_azure_twilio st msgs).2.1.started = false := by
  induction msgs with
  | nil => intro st hst; exact hst
  | cons m rest ih =>
    intro st hst
    obtain ⟨t, msg⟩ := m
    have hrest : ∀ p ∈ rest, ∀ sid, p.2 ≠ TwilioMsg.start sid :=
      fun p hp => h p (List.mem_cons_of_mem _ hp)
    cases msg with
    | start sid => exact absurd rfl (h (t, .start sid) (List.mem_cons_self _ _) sid)
    | media p =>
      by_cases hg : t - st.start_time < 6/5
      · simpa [forward_to_azure_twilio, hg] using ih hrest st hst
      · cases p with
        | bad => simpa [forward_to_azure_twilio, hg] using hst
        | ok bytes => simpa [forward_to_azure_twilio, hg] using ih hrest st hst
    | stop => simpa [forward_to_azure_twilio] using hst
    | other => simpa [forward_to_azure_twilio] using ih hrest st hst
    | malformedText => simpa [forward_to_azure_twilio] using hst
    | disconnect => simpa [forward_to_azure_twilio] using hst

/-- The Twilio uplink on a pure media trace: exactly the frames past the
1.2 s gate are transcoded and appended, in order. -/
theorem twilio_media_run (s0 : ℚ) (frames : List (ℚ × List Nat)) :
    ∀ st : TwilioUplinkState, st.start_time = s0 →
      (forward_to_azure_twilio st
        (frames.map (fun f => (f.1, TwilioMsg.media (MediaPayload.ok f.2))))).1
      = (frames.filter (fun f => !decide (f.1 - s0 < 6/5))).map
          (fun f => resample_mulaw_8k_to_pcm_24k f.2) := by
  induction frames with
  | nil => intro st h; rfl
  | cons f rest ih =>
    intro st h
    subst h
    by_cases hg : f.1 - st.start_time < 6/5
    · simp [forward_to_azure_twilio, hg, List.filter_cons, ih st rfl]
    · simp [forward_to_azure_twilio, hg, List.filter_cons, ih st rfl]

/-! ### Claims -/

/-- C1, counterexample: when the argument string of a tool call does not
parse as JSON, `handle_tool_call` pushes nothing into the agent
connection — no function-call-output item and no response-create — so the
dispatcher does not produce a result on every execution path. -/
theorem handle_tool_call_malformed_pushes_nothing :
    (handle_tool_call (some "https://search.example") (some "key1") "call_1"
        "search_properties" RawArgs.malformed (Collab.ok (some 0) []) false false).effects
      = [] := rfl

/-- C1, amended: on every dispatch whose raw argument string parses and
whose two connection operations succeed, `handle_tool_call` pushes exactly
one function-call-output item — always a JSON object, an error object on
collaborator failure or unknown tool — followed by one response-create.
(When argument parsing or a connection operation raises, the blanket
`except` only logs and nothing further reaches the agent.) -/
theorem handle_tool_call_pushes_output_then_create (ep k : Option String)
    (call_id name : String) (args : ToolArgs) (resp : Collab) :
    ∃ r : J,
      (handle_tool_call ep k call_id name (RawArgs.parses args) resp false false).effects
        = [ToolEffect.functionCallOutput call_id r, ToolEffect.responseCreate]
      ∧ ("error" ∈ r.keys ∨ "found" ∈ r.keys
          ∨ "properties" ∈ r.keys ∨ "property" ∈ r.keys) := by
  refine ⟨if name = "search_properties" then
      search_properties ep k (args.query.getD "") (args.property_type.getD "")
        (args.location.getD "") args.min_price args.max_price args.bedrooms resp
    else if name = "get_property_details" then
      get_property_details ep k (args.reference_number.getD "") resp
    else J.obj [("error", J.str "Unknown tool called.")], rfl, ?_⟩
  split
  · rcases search_properties_keyed ep k (args.query.getD "") (args.property_type.getD "")
      (args.location.getD "") args.min_price args.max_price args.bedrooms resp
      with h | h | h <;> tauto
  · split
    · rcases get_property_details_keyed ep k (args.reference_number.getD "") resp
        with h | h | h <;> tauto
    · simp [J.keys]

/-- C2, counterexample: a successful (status 200) search with an empty hit
list returns the object with keys `found` and `message` only — it carries
none of the keys `properties`, `property`, `error` that the claim lists. -/
theorem search_properties_empty_lacks_listed_keys :
    (((search_properties (some "https://search.example") (some "key1") "apartment" "" ""
          none none none (Collab.ok (some 0) [])).keys.contains "properties")
      || ((search_properties (some "https://search.example") (some "key1") "apartment" "" ""
          none none none (Collab.ok (some 0) [])).keys.contains "property")
      || ((search_properties (some "https://search.example") (some "key1") "apartment" "" ""
          none none none (Collab.ok (some 0) [])).keys.contains "error")) = false := by
  decide

/-- C2, amended: for every invocation and every collaborator outcome,
`search_properties` returns a JSON object carrying a `properties`,
`error`, or `found` key, and `get_property_details` one carrying a
`property`, `error`, or `found` key (the `found` alternative covers the
empty-result and unknown-reference message objects); the functions are
total — every failure of the one outbound request is converted to an
error object by their try/except. -/
theorem tool_results_always_keyed_json (ep k : Option String) (q pt loc : String)
    (mn mx bd : Option Int) (ref : String) (respS respD : Collab) :
    ("error" ∈ (search_properties ep k q pt loc mn mx bd respS).keys
      ∨ "found" ∈ (search_properties ep k q pt loc mn mx bd respS).keys
      ∨ "properties" ∈ (search_properties ep k q pt loc mn mx bd respS).keys)
    ∧ ("error" ∈ (get_property_details ep k ref respD).keys
      ∨ "found" ∈ (get_property_details ep k ref respD).keys
      ∨ "property" ∈ (get_property_details ep k ref respD).keys) :=
  ⟨search_properties_keyed ep k q pt loc mn mx bd respS,
   get_property_details_keyed ep k ref respD⟩

/-- C3, counterexample: a media chunk whose payload fails to decode, past
the audio gate, ends the whole client-to-agent loop with an error: the
following well-formed chunk is never processed (no append reaches the
agent), instead of the bad chunk being dropped and the loop continuing. -/
theorem media_decode_error_stops_loop_concrete :
    forward_to_azure_twilio initTwilioState
        [((2 : ℚ), TwilioMsg.media MediaPayload.bad),
         ((2 : ℚ), TwilioMsg.media (MediaPayload.ok [255]))]
      = ([], initTwilioState, UplinkExit.errored) := by
  have hg : ¬ ((2 : ℚ) - initTwilioState.start_time < 6/5) := by
    simp [initTwilioState]
    norm_num
  simp [forward_to_azure_twilio, hg]

/-- C3, amended: a decoding/conversion error on an incoming media chunk is
not caught inside the forwarding loop (only `WebSocketDisconnect` is): if
the chunk is past the audio gate the loop terminates with an uncaught
error and no subsequent chunk is processed, ending the call via the
session-level handler (which keeps the process alive); a bad chunk still
within the gate window is skipped by the gate before decoding and the
loop continues. -/
theorem media_decode_error_errors_loop (st : TwilioUplinkState) (t : ℚ)
    (rest : List (ℚ × TwilioMsg)) :
    ((6 : ℚ)/5 ≤ t - st.start_time →
      forward_to_azure_twilio st ((t, TwilioMsg.media MediaPayload.bad) :: rest)
        = ([], st, UplinkExit.errored))
    ∧ (t - st.start_time < (6 : ℚ)/5 →
      forward_to_azure_twilio st ((t, TwilioMsg.media MediaPayload.bad) :: rest)
        = forward_to_azure_twilio st rest) := by
  constructor
  · intro h
    simp [forward_to_azure_twilio, not_lt.2 h]
  · intro h
    simp [forward_to_azure_twilio, h]

/-- C3, witness for `media_decode_error_errors_loop` at concrete inputs:
a bad chunk at `t = 2` (past the gate) errors the loop, a bad chunk at
`t = 1` (inside the gate) is skipped. -/
theorem media_decode_error_witness :
    forward_to_azure_twilio initTwilioState [((2 : ℚ), TwilioMsg.media MediaPayload.bad)]
        = ([], initTwilioState, UplinkExit.errored)
    ∧ forward_to_azure_twilio initTwilioState [((1 : ℚ), TwilioMsg.media MediaPayload.bad)]
        = forward_to_azure_twilio initTwilioState [] := by
  constructor
  · exact (media_decode_error_errors_loop initTwilioState 2 []).1
      (by simp [initTwilioState]; norm_num)
  · exact (media_decode_error_errors_loop initTwilioState 1 []).2
      (by simp [initTwilioState]; norm_num)

/-- C4, counterexample: in the telephony variant, a speech-started event
arriving while `stream_sid` is still unset issues only the
response-cancel command — no client-side clear signal — so not every
speech-started event triggers both. -/
theorem speech_started_without_sid_no_clear :
    forward_to_client_twilio_event none AgentEvent.speechStarted
      = [TwilioOut.cancelResponse] := rfl

/-- C4, amended: in the browser variant, and in the telephony variant once
a stream identifier is set, every speech-started event emits the
client-side clear signal immediately followed by the response-cancel
command, and both precede every output of later events (in particular any
audio-delta of the superseded response); in the telephony variant before
a stream identifier is assigned, only the response-cancel is issued. -/
theorem barge_in_clear_then_cancel (pre post : List AgentEvent) (sid : String) :
    forward_to_client_browser (pre ++ AgentEvent.speechStarted :: post)
      = forward_to_client_browser pre
          ++ [BrowserOut.clearAudio, BrowserOut.cancelResponse]
          ++ forward_to_client_browser post
    ∧ forward_to_client_twilio (some sid) (pre ++ AgentEvent.speechStarted :: post)
      = forward_to_client_twilio (some sid) pre
          ++ [TwilioOut.clearToClient sid, TwilioOut.cancelResponse]
          ++ forward_to_client_twilio (some sid) post := by
  constructor <;>
    simp [forward_to_client_browser, forward_to_client_twilio,
      forward_to_client_browser_event, forward_to_client_twilio_event]

/-- C5: after a start frame records `start_time = s0`, a trace of media
frames is forwarded exactly as the gate dictates: every frame with
`t - s0 < 1.2` is discarded (contributes no append), every frame with
`t - s0 ≥ 1.2` is transcoded and appended to the agent input buffer, in
order. -/
theorem audio_gate_filters_frames (sid : String) (s0 : ℚ)
    (frames : List (ℚ × List Nat)) (st : TwilioUplinkState) :
    (forward_to_azure_twilio st
        ((s0, TwilioMsg.start sid)
          :: frames.map (fun f => (f.1, TwilioMsg.media (MediaPayload.ok f.2))))).1
      = (frames.filter (fun f => !decide (f.1 - s0 < 6/5))).map
          (fun f => resample_mulaw_8k_to_pcm_24k f.2) := by
  have h := twilio_media_run s0 frames ⟨some sid, s0, true⟩ rfl
  simpa [forward_to_azure_twilio] using h

/-- C6: the greeting task issues its response-create exactly once per
call, as a direct result of the readiness signal: with one or more
(duplicate) start messages the event is set and exactly one
response-create is issued, with no start message the event stays unset
and none is — in both the browser and the telephony variant. -/
theorem greeting_exactly_once
    (n : Nat) (hn : 1 ≤ n) (msgs : List BrowserMsg) (hms : BrowserMsg.start ∉ msgs)
    (m : Nat) (hm : 1 ≤ m) (sid : String) (ts : ℚ) (tmsgs : List (ℚ × TwilioMsg))
    (htm : ∀ p ∈ tmsgs, ∀ s, p.2 ≠ TwilioMsg.start s) :
    (send_initial_greeting
        (forward_to_azure_browser false
          (List.replicate n BrowserMsg.start ++ msgs)).2.1).length = 1
    ∧ (send_initial_greeting (forward_to_azure_browser false msgs).2.1).length = 0
    ∧ (send_initial_greeting
        (forward_to_azure_twilio initTwilioState
          (List.replicate m (ts, TwilioMsg.start sid) ++ tmsgs)).2.1.started).length = 1
    ∧ (send_initial_greeting
        (forward_to_azure_twilio initTwilioState tmsgs).2.1.started).length = 0 := by
  refine ⟨?_, ?_, ?_, ?_⟩
  · obtain ⟨n', rfl⟩ : ∃ n', n = n' + 1 := ⟨n - 1, by omega⟩
    have h1 : (forward_to_azure_browser false
        (List.replicate (n' + 1) BrowserMsg.start ++ msgs)).2.1 = true := by
      rw [List.replicate_succ, List.cons_append]
      simpa [forward_to_azure_browser] using
        browser_ev_mono (List.replicate n' BrowserMsg.start ++ msgs)
    simp [send_initial_greeting, h1]
  · simp [send_initial_greeting, browser_ev_no_start msgs hms]
  · obtain ⟨m', rfl⟩ : ∃ m', m = m' + 1 := ⟨m - 1, by omega⟩
    have h2 : (forward_to_azure_twilio initTwilioState
        (List.replicate (m' + 1) (ts, TwilioMsg.start sid) ++ tmsgs)).2.1.started = true := by
      rw [List.replicate_succ, List.cons_append]
      simpa [forward_to_azure_twilio] using
        twilio_started_mono (List.replicate m' (ts, TwilioMsg.start sid) ++ tmsgs)
          ⟨some sid, ts, true⟩ rfl
    simp [send_initial_greeting, h2]
  · simp [send_initial_greeting, twilio_started_no_start tmsgs htm initTwilioState rfl]

/-- C6, witness for `greeting_exactly_once`: two duplicate start messages
and an empty tail in both variants. -/
theorem greeting_exactly_once_witness :
    (send_initial_greeting
        (forward_to_azure_browser false
          (List.replicate 2 BrowserMsg.start ++ [])).2.1).length = 1
    ∧ (send_initial_greeting (forward_to_azure_browser false []).2.1).length = 0
    ∧ (send_initial_greeting
        (forward_to_azure_twilio initTwilioState
          (List.replicate 2 ((0 : ℚ), TwilioMsg.start "MZ1") ++ [])).2.1.started).length = 1
    ∧ (send_initial_greeting
        (forward_to_azure_twilio initTwilioState []).2.1.started).length = 0 :=
  greeting_exactly_once 2 (by norm_num) [] (by simp) 2 (by norm_num) "MZ1" 0 [] (by simp)

/-- C7: round-tripping a 24kHz PCM16 frame through the uplink conversion
(PCM 24k to mu-law 8k) and the downlink conversion (mu-law 8k to PCM 24k)
yields a frame of the same byte length up to 4 bytes (two samples) — well
within one chunk — and an all-zero (silent) frame round-trips to an
all-zero frame. -/
theorem roundtrip_length_and_silence (pcm : List Int) :
    (2 * (resample_mulaw_8k_to_pcm_24k (resample_pcm_24k_to_mulaw_8k pcm)).length
        ≤ 2 * pcm.length
      ∧ 2 * pcm.length
        ≤ 2 * (resample_mulaw_8k_to_pcm_24k (resample_pcm_24k_to_mulaw_8k pcm)).length + 4)
    ∧ (pcm.all (fun x => x == 0) = true →
        (resample_mulaw_8k_to_pcm_24k (resample_pcm_24k_to_mulaw_8k pcm)).all
          (fun y => y == 0) = true) := by
  have hlen : (resample_mulaw_8k_to_pcm_24k (resample_pcm_24k_to_mulaw_8k pcm)).length
      = if (pcm.length + 2) / 3 = 0 then 0 else 3 * ((pcm.length + 2) / 3) - 2 := by
    have h1 : (resample_pcm_24k_to_mulaw_8k pcm).length = (pcm.length + 2) / 3 := by
      simp [resample_pcm_24k_to_mulaw_8k, lin2ulaw, ratecv_24k_to_8k_len]
    have h2 := ratecv_8k_to_24k_len (ulaw2lin (resample_pcm_24k_to_mulaw_8k pcm))
    have h3 : (ulaw2lin (resample_pcm_24k_to_mulaw_8k pcm)).length = (pcm.length + 2) / 3 := by
      simp [ulaw2lin, h1]
    rw [h3] at h2
    simpa [resample_mulaw_8k_to_pcm_24k] using h2
  refine ⟨?_, ?_⟩
  · rw [hlen]
    by_cases hz : (pcm.length + 2) / 3 = 0 <;> simp [hz] <;> omega
  · intro hz
    rw [List.all_eq_true] at hz ⊢
    intro y hy
    have hzz : ∀ x ∈ pcm, x = 0 := fun x hx => by simpa using hz x hx
    simpa using roundtrip_zero_aux pcm hzz y hy

/-- C7, witness for `roundtrip_length_and_silence` at the silent frame
`[0, 0, 0]`. -/
theorem roundtrip_silence_witness :
    (2 * (resample_mulaw_8k_to_pcm_24k (resample_pcm_24k_to_mulaw_8k [0, 0, 0])).length
        ≤ 2 * ([0, 0, 0] : List Int).length)
    ∧ (resample_mulaw_8k_to_pcm_24k (resample_pcm_24k_to_mulaw_8k [0, 0, 0])).all
        (fun y => y == 0) = true :=
  ⟨(roundtrip_length_and_silence [0, 0, 0]).1.1,
   (roundtrip_length_and_silence [0, 0, 0]).2 (by decide)⟩

/-- C8: in the freshly initialised telephony session (no start frame yet,
`stream_sid = none`, `start_time` still its initial value 0), a media
frame processed at a clock reading of at least 1.2 passes the audio gate:
it is transcoded and appended to the agent input buffer even though the
stream has not signaled readiness. -/
theorem pre_start_frame_not_gated (t : ℚ) (bytes : List Nat)
    (rest : List (ℚ × TwilioMsg)) (h : (6 : ℚ)/5 ≤ t) :
    initTwilioState.stream_sid = none ∧ initTwilioState.started = false ∧
    (forward_to_azure_twilio initTwilioState
        ((t, TwilioMsg.media (MediaPayload.ok bytes)) :: rest)).1
      = resample_mulaw_8k_to_pcm_24k bytes
          :: (forward_to_azure_twilio initTwilioState rest).1 := by
  refine ⟨rfl, rfl, ?_⟩
  have hg : ¬ (t - initTwilioState.start_time < 6/5) := by
    simp [initTwilioState]
    linarith
  simp [forward_to_azure_twilio, hg]

/-- C8, witness for `pre_start_frame_not_gated`: a frame at clock 2 before
any start frame is transcoded and appended. -/
theorem pre_start_frame_witness :
    (forward_to_azure_twilio initTwilioState
        [((2 : ℚ), TwilioMsg.media (MediaPayload.ok [255]))]).1 = [[0]] := by
  have h := pre_start_frame_not_gated 2 [255] [] (by norm_num)
  rw [h.2.2]
  decide

/-- C9: in a non-empty search result the `found` field is the backend's
`@odata.count` with default 0 when absent, while `showing` is the length
of the returned hit list — so a backend response with hits but no count
reports `found: 0` next to a non-empty `properties` array, and `found`
need not equal `showing`. -/
theorem found_uses_odata_count_default_zero (ep k : Option String)
    (hep : falsyStr ep = false) (hk : falsyStr k = false)
    (q pt loc : String) (mn mx bd : Option Int)
    (count : Option Int) (value : List (List (String × J)))
    (hv : value.isEmpty = false) :
    (search_properties ep k q pt loc mn mx bd (Collab.ok count value)).get "found"
        = some (J.num (count.getD 0))
    ∧ (search_properties ep k q pt loc mn mx bd (Collab.ok count value)).get "showing"
        = some (J.num value.length)
    ∧ (search_properties ep k q pt loc mn mx bd (Collab.ok count value)).get "properties"
        = some (J.arr (value.map formatListing)) := by
  unfold search_properties
  simp [hep, hk, hv, J.get, List.find?]

/-- C9, witness for `found_uses_odata_count_default_zero`: one hit and an
absent count give `found = 0` and `showing = 1`. -/
theorem found_count_witness :
    (search_properties (some "https://search.example") (some "key1") "q" "" ""
        none none none (Collab.ok none [[]])).get "found" = some (J.num 0)
    ∧ (search_properties (some "https://search.example") (some "key1") "q" "" ""
        none none none (Collab.ok none [[]])).get "showing" = some (J.num 1) := by
  have h := found_uses_odata_count_default_zero (some "https://search.example") (some "key1")
    rfl rfl "q" "" "" none none none none [[]] rfl
  exact ⟨h.1, by simpa using h.2.1⟩

/-- C10: `handle_tool_call` never propagates an exception to its caller:
on every input — including a non-parsing argument string and failures of
the send or the follow-up response-create — the blanket `except` catches
and logs, so the spawned tool-dispatch task terminates without an
unhandled fault. -/
theorem handle_tool_call_never_propagates (ep k : Option String)
    (call_id name : String) (arguments : RawArgs) (resp : Collab)
    (sendFails createFails : Bool) :
    (handle_tool_call ep k call_id name arguments resp sendFails createFails).propagated
      = false := by
  cases arguments <;> cases sendFails <;> cases createFails <;> rfl

end VoiceAgent
